import Mathlib

/-!
Shallow embedding of `src/foundation/main.c` from foundation_lib: the
process-lifecycle entry adapters, the native termination handlers
(`_main_console_handler` on Windows, `sighandler` on POSIX), the crash-context
label construction, and the Apple "will terminate" lifecycle hook.

External collaborators (event queue, threading, configuration, string
utilities, the crash guard internals) are modelled as opaque effects recorded
in result structures, or as input parameters (e.g. the value returned by the
run phase). Preprocessor configurations of the single C `main` are embedded as
separate definitions (`main_console` for the console/daemon configuration,
`main_macosx` for the Apple configuration).
-/

namespace Foundation

/-- Events posted to the external event collaborator.
`foundationTerminate` embeds `FOUNDATIONEVENT_TERMINATE` (posted via
`system_post_event`), `coreTerminate` embeds `COREEVENT_TERMINATE`
(posted via `system_event_post` in the Apple lifecycle hook). -/
inductive Event where
  | foundationTerminate
  | coreTerminate
  deriving DecidableEq

/-- Windows console control event code `CTRL_C_EVENT`. -/
def CTRL_C_EVENT : Nat := 0

/-- Windows console control event code `CTRL_BREAK_EVENT`. -/
def CTRL_BREAK_EVENT : Nat := 1

/-- Windows console control event code `CTRL_CLOSE_EVENT`. -/
def CTRL_CLOSE_EVENT : Nat := 2

/-- Windows console control event code `CTRL_LOGOFF_EVENT`. -/
def CTRL_LOGOFF_EVENT : Nat := 5

/-- Windows console control event code `CTRL_SHUTDOWN_EVENT`. -/
def CTRL_SHUTDOWN_EVENT : Nat := 6

/-- POSIX signal number `SIGINT`. -/
def SIGINT : Nat := 2

/-- POSIX signal number `SIGQUIT`. -/
def SIGQUIT : Nat := 3

/-- POSIX signal number `SIGKILL`. -/
def SIGKILL : Nat := 9

/-- POSIX signal number `SIGPIPE`. -/
def SIGPIPE : Nat := 13

/-- POSIX signal number `SIGTERM`. -/
def SIGTERM : Nat := 15

/-- Observable behaviour of one invocation of the Windows console control
handler (`_main_console_handler`, main.c lines 22-50):
which events it posted via `system_post_event`, whether it called
`SetProcessShutdownParameters` with `SHUTDOWN_NORETRY`, how many milliseconds
it passed to `thread_sleep`, and the BOOL it returned to the OS. -/
structure ConsoleHandlerResult where
  control_name : String
  posted_events : List Event
  shutdown_params_set : Bool
  sleep_ms : Nat
  handled : Bool
  deriving DecidableEq

/-- Embedding of `_main_console_handler` (main.c lines 22-50). The C switch
sets `control_name`, `post_terminate` and `handled`; `daemon` is the value of
the external configuration lookup `config_bool(HASH_APPLICATION, HASH_DAEMON)`
consulted in the `CTRL_LOGOFF_EVENT` case. If `post_terminate` is set, the
handler posts `FOUNDATIONEVENT_TERMINATE`, re-reads and sets the process
shutdown parameters with `SHUTDOWN_NORETRY`, and sleeps 1000 ms. -/
def _main_console_handler (daemon : Bool) (control_type : Nat) : ConsoleHandlerResult :=
  let switch : String × Bool × Bool :=
    if control_type = CTRL_C_EVENT then ("CTRL_C", true, true)
    else if control_type = CTRL_BREAK_EVENT then ("CTRL_BREAK", false, true)
    else if control_type = CTRL_CLOSE_EVENT then ("CTRL_CLOSE", true, true)
    else if control_type = CTRL_LOGOFF_EVENT then ("CTRL_LOGOFF", !daemon, true)
    else if control_type = CTRL_SHUTDOWN_EVENT then ("CTRL_SHUTDOWN", true, true)
    else ("UNKNOWN", false, false)
  if switch.2.1 then
    { control_name := switch.1
      posted_events := [Event.foundationTerminate]
      shutdown_params_set := true
      sleep_ms := 1000
      handled := switch.2.2 }
  else
    { control_name := switch.1
      posted_events := []
      shutdown_params_set := false
      sleep_ms := 0
      handled := switch.2.2 }

/-- Observable behaviour of one invocation of the POSIX signal handler
(`sighandler`, main.c lines 113-128): the name it logs and the events it
posts. The handler performs no shutdown-deferral call and no sleep. -/
structure SigHandlerResult where
  signame : String
  posted_events : List Event
  deriving DecidableEq

/-- Embedding of `sighandler` (main.c lines 113-128): the switch only selects
the logged name; `system_post_event(FOUNDATIONEVENT_TERMINATE)` is executed
unconditionally for every signal the handler receives. -/
def sighandler (sig : Nat) : SigHandlerResult :=
  let signame : String :=
    if sig = SIGKILL then "SIGKILL"
    else if sig = SIGTERM then "SIGTERM"
    else if sig = SIGQUIT then "SIGQUIT"
    else if sig = SIGINT then "SIGINT"
    else "UNKNOWN"
  { signame := signame
    posted_events := [Event.foundationTerminate] }

/-- Signals for which `main` installs `sighandler` via `signal()`
(main.c lines 156-159). `SIGPIPE` is instead explicitly ignored. -/
def installed_signals : List Nat := [SIGKILL, SIGTERM, SIGQUIT, SIGINT]

/-- Embedding of the read-only `application_t` descriptor fields this file
uses: `short_name` (a possibly-null C string), the rendering of the version by
the external `version_to_string_static`, and whether `dump_callback` is
non-null. -/
structure application_t where
  short_name : Option String
  version : String
  dump_callback : Bool
  deriving DecidableEq

/-- How the run phase is invoked by an entry adapter. -/
inductive RunCall where
  | direct_main_run
  | guarded_main_run (dump_registered : Bool) (label : String)
  | direct_app_main
  deriving DecidableEq

/-- Observable behaviour of one execution of a platform entry adapter:
which handlers it installed, how (and whether) it invoked the run phase,
whether `crash_guard_set` was called, the crash-context label it built and how
many times that label was deallocated, whether `main_shutdown` was called,
whether the Cocoa bundle handle was released, and the returned exit code. -/
structure AdapterResult where
  signals_installed : Bool
  sigpipe_ignored : Bool
  console_handler_registered : Bool
  thread_set_main_called : Bool
  run_call : Option RunCall
  secondary_thread_spawned : Bool
  ui_loop_entered : Bool
  guard_set : Bool
  label_built : Option String
  label_deallocations : Nat
  shutdown_called : Bool
  bundle_released : Bool
  exit_code : Int
  deriving DecidableEq

/-- Embedding of the crash-context label construction (main.c lines 73-80 and
205-212): `string_clone(aname ? aname : "unknown")`, then append `"-"`, then
append the version string. -/
def build_crash_label (app : application_t) : String :=
  (match app.short_name with
   | some aname => aname
   | none => "unknown") ++ "-" ++ app.version

/-- Embedding of `WinMain` (main.c lines 58-94). `init_result` is the value
returned by `main_initialize()`; `run_result` is the value the run step
returned (`main_run(0)` in debug builds, the `crash_guard` call in release
builds; `crash_guard` propagates the entry's return value on normal return).
On `main_initialize() < 0` the function returns -1 immediately. Otherwise it
registers the console control handler, calls `thread_set_main`, runs the
(debug: direct, release: crash-guarded) run step, and calls `main_shutdown`.
In release builds it builds the crash label, registers the dump callback via
`crash_guard_set` only when the descriptor supplies one, and deallocates the
label once after the run step returns. -/
def WinMain (build_debug : Bool) (init_result : Int) (app : application_t)
    (run_result : Int) : AdapterResult :=
  if init_result < 0 then
    { signals_installed := false
      sigpipe_ignored := false
      console_handler_registered := false
      thread_set_main_called := false
      run_call := none
      secondary_thread_spawned := false
      ui_loop_entered := false
      guard_set := false
      label_built := none
      label_deallocations := 0
      shutdown_called := false
      bundle_released := false
      exit_code := -1 }
  else if build_debug then
    { signals_installed := false
      sigpipe_ignored := false
      console_handler_registered := true
      thread_set_main_called := true
      run_call := some RunCall.direct_main_run
      secondary_thread_spawned := false
      ui_loop_entered := false
      guard_set := false
      label_built := none
      label_deallocations := 0
      shutdown_called := true
      bundle_released := false
      exit_code := run_result }
  else
    { signals_installed := false
      sigpipe_ignored := false
      console_handler_registered := true
      thread_set_main_called := true
      run_call := some (RunCall.guarded_main_run app.dump_callback (build_crash_label app))
      secondary_thread_spawned := false
      ui_loop_entered := false
      guard_set := app.dump_callback
      label_built := some (build_crash_label app)
      label_deallocations := 1
      shutdown_called := true
      bundle_released := false
      exit_code := run_result }

/-- Embedding of `main` (main.c lines 138-241) in its console/daemon
configuration (POSIX, not Apple, not Android). On `main_initialize() < 0` it
returns `ret` still holding -1. Otherwise it installs `sighandler` for
SIGKILL/SIGTERM/SIGQUIT/SIGINT, ignores SIGPIPE, calls `thread_set_main`,
runs the (debug: direct, release: crash-guarded) run step exactly as
`WinMain` does, calls `main_shutdown`, and returns the run step's value. -/
def main_console (build_debug : Bool) (init_result : Int) (app : application_t)
    (run_result : Int) : AdapterResult :=
  if init_result < 0 then
    { signals_installed := false
      sigpipe_ignored := false
      console_handler_registered := false
      thread_set_main_called := false
      run_call := none
      secondary_thread_spawned := false
      ui_loop_entered := false
      guard_set := false
      label_built := none
      label_deallocations := 0
      shutdown_called := false
      bundle_released := false
      exit_code := -1 }
  else if build_debug then
    { signals_installed := true
      sigpipe_ignored := true
      console_handler_registered := false
      thread_set_main_called := true
      run_call := some RunCall.direct_main_run
      secondary_thread_spawned := false
      ui_loop_entered := false
      guard_set := false
      label_built := none
      label_deallocations := 0
      shutdown_called := true
      bundle_released := false
      exit_code := run_result }
  else
    { signals_installed := true
      sigpipe_ignored := true
      console_handler_registered := false
      thread_set_main_called := true
      run_call := some (RunCall.guarded_main_run app.dump_callback (build_crash_label app))
      secondary_thread_spawned := false
      ui_loop_entered := false
      guard_set := app.dump_callback
      label_built := some (build_crash_label app)
      label_deallocations := 1
      shutdown_called := true
      bundle_released := false
      exit_code := run_result }

/-- Embedding of `main` (main.c lines 138-241) in its macOS configuration.
`bsdutility` is the external lookup `app_config_bool(_HASH_APPLICATION,
_HASH_BSDUTILITY)`; `app_main_result` is the value returned by `app_main(0)`
and `ui_loop_result` the value returned by `NSApplicationMain`. When not a
BSD utility, a secondary thread is spawned via `_app_start_main_ns_thread`
and the calling thread enters the Cocoa event loop; when a BSD utility,
`app_main(0)` is called directly with no crash guard in either build mode
(the Apple branch replaces the whole debug/release run-step block). After the
branch, `main_shutdown()` is called and `_bundle` is released if present.
`build_debug` is accepted for uniformity but the Apple branch never tests it. -/
def main_macosx (bsdutility build_debug : Bool) (init_result : Int)
    (app : application_t) (app_main_result ui_loop_result : Int)
    (bundle_present : Bool) : AdapterResult :=
  if init_result < 0 then
    { signals_installed := false
      sigpipe_ignored := false
      console_handler_registered := false
      thread_set_main_called := false
      run_call := none
      secondary_thread_spawned := false
      ui_loop_entered := false
      guard_set := false
      label_built := none
      label_deallocations := 0
      shutdown_called := false
      bundle_released := false
      exit_code := -1 }
  else if !bsdutility then
    { signals_installed := true
      sigpipe_ignored := true
      console_handler_registered := false
      thread_set_main_called := true
      run_call := none
      secondary_thread_spawned := true
      ui_loop_entered := true
      guard_set := false
      label_built := none
      label_deallocations := 0
      shutdown_called := true
      bundle_released := bundle_present
      exit_code := ui_loop_result }
  else
    { signals_installed := true
      sigpipe_ignored := true
      console_handler_registered := false
      thread_set_main_called := true
      run_call := some RunCall.direct_app_main
      secondary_thread_spawned := false
      ui_loop_entered := false
      guard_set := false
      label_built := none
      label_deallocations := 0
      shutdown_called := true
      bundle_released := bundle_present
      exit_code := app_main_result }

/-- Steps executed by the Apple "will terminate" lifecycle hook, in program
order (main.c lines 267-288). -/
inductive AppAction where
  | postEvent (e : Event)
  | pumpEvents
  | mainPostLoop
  | terminateServices
  | releaseBundle
  | appExit
  | postExit
  | deallocArgv
  | coreShutdown
  deriving DecidableEq

/-- Embedding of `_app_will_terminate` (main.c lines 267-288) as the sequence
of calls it performs synchronously: post `COREEVENT_TERMINATE`, pump events,
run the post-loop hook, terminate services, `CFRelease(_bundle)` when the
bundle handle is present, `app_exit`, `_app_post_exit`, deallocate the
`_invoke_argv` array, and finally `core_shutdown`. -/
def _app_will_terminate (bundle_present : Bool) : List AppAction :=
  [AppAction.postEvent Event.coreTerminate, AppAction.pumpEvents,
   AppAction.mainPostLoop, AppAction.terminateServices]
  ++ (if bundle_present then [AppAction.releaseBundle] else [])
  ++ [AppAction.appExit, AppAction.postExit, AppAction.deallocArgv,
      AppAction.coreShutdown]

/-- Concrete application descriptor used by witnesses. -/
def sampleApp : application_t :=
  { short_name := some "app", version := "1.0", dump_callback := true }

/-- Concrete application descriptor with no short name, used by witnesses. -/
def anonApp : application_t :=
  { short_name := none, version := "2.3", dump_callback := false }

/-- Spec-side statement of the amended C1 mapping table, written from the
amended claim: CTRL_C, CTRL_CLOSE and CTRL_SHUTDOWN post exactly one
termination event and are reported handled; CTRL_LOGOFF posts one exactly
when the daemon flag is false, reported handled either way; CTRL_BREAK posts
none yet is reported handled; every other code posts none and is reported
not handled. First component: the posted events; second: the handled flag. -/
def amendedConsoleMapping (daemon : Bool) (ct : Nat) : List Event × Bool :=
  if ct = CTRL_C_EVENT then ([Event.foundationTerminate], true)
  else if ct = CTRL_BREAK_EVENT then ([], true)
  else if ct = CTRL_CLOSE_EVENT then ([Event.foundationTerminate], true)
  else if ct = CTRL_LOGOFF_EVENT then
    (if daemon then [] else [Event.foundationTerminate], true)
  else if ct = CTRL_SHUTDOWN_EVENT then ([Event.foundationTerminate], true)
  else ([], false)

/-- C1 counterexample: the claim "every native cause not in the table posts
zero TerminationRequests and returns the platform's not-handled value" fails
at CTRL_BREAK (not in the table, posts zero, yet the handler returns TRUE),
and the claim "every cause in the table posts exactly one TerminationRequest"
fails at CTRL_LOGOFF when the daemon flag is true (in the table, posts
zero). -/
theorem C1_counterexample :
    ¬ ((_main_console_handler false CTRL_BREAK_EVENT).handled = false)
    ∧ ¬ ((_main_console_handler true CTRL_LOGOFF_EVENT).posted_events.length = 1) := by
  decide

/-- C1 (amended): the Windows console handler's posted events and handled
flag agree everywhere with the amended mapping table `amendedConsoleMapping`
(CTRL_C / CTRL_CLOSE / CTRL_SHUTDOWN: one event, handled; CTRL_LOGOFF: one
event exactly when the daemon flag is false, handled either way; CTRL_BREAK:
no event, yet handled; anything else: no event, not handled), and the POSIX
handler posts exactly one termination event for each of the four signals it
is installed for. -/
theorem C1_mapping_amended (daemon : Bool) (ct : Nat) :
    (_main_console_handler daemon ct).posted_events = (amendedConsoleMapping daemon ct).1
    ∧ (_main_console_handler daemon ct).handled = (amendedConsoleMapping daemon ct).2
    ∧ (sighandler SIGINT).posted_events = [Event.foundationTerminate]
    ∧ (sighandler SIGQUIT).posted_events = [Event.foundationTerminate]
    ∧ (sighandler SIGTERM).posted_events = [Event.foundationTerminate]
    ∧ (sighandler SIGKILL).posted_events = [Event.foundationTerminate] := by
  refine ⟨?_, ?_, rfl, rfl, rfl, rfl⟩ <;>
  · unfold _main_console_handler amendedConsoleMapping
    by_cases h0 : ct = CTRL_C_EVENT <;>
    by_cases h1 : ct = CTRL_BREAK_EVENT <;>
    by_cases h2 : ct = CTRL_CLOSE_EVENT <;>
    by_cases h3 : ct = CTRL_LOGOFF_EVENT <;>
    by_cases h4 : ct = CTRL_SHUTDOWN_EVENT <;>
    cases daemon <;>
    simp_all [CTRL_C_EVENT, CTRL_BREAK_EVENT, CTRL_CLOSE_EVENT,
      CTRL_LOGOFF_EVENT, CTRL_SHUTDOWN_EVENT]

/-- C2 counterexample: the claim that for a UserInterrupt "the handler
performs no shutdown-deferral request or pause" fails on Windows: the CTRL_C
case sets post_terminate, so the handler calls SetProcessShutdownParameters
and sleeps 1000 ms. -/
theorem C2_counterexample :
    ¬ ((_main_console_handler false CTRL_C_EVENT).shutdown_params_set = false
       ∧ (_main_console_handler false CTRL_C_EVENT).sleep_ms = 0) := by
  decide

/-- C2 (amended): a UserInterrupt posts exactly one termination event on both
platforms and the handler is reported handled on Windows; the POSIX SIGINT
handler performs no deferral request and no pause (its embedding records no
such effects), but the Windows CTRL_C handler additionally requests OS
shutdown deferral and pauses 1000 ms before returning. Neither handler
touches the lifecycle state (the embeddings have no state effect, matching
the source, which only posts an event). -/
theorem C2_user_interrupt_amended (daemon : Bool) :
    (_main_console_handler daemon CTRL_C_EVENT).posted_events = [Event.foundationTerminate]
    ∧ (_main_console_handler daemon CTRL_C_EVENT).shutdown_params_set = true
    ∧ (_main_console_handler daemon CTRL_C_EVENT).sleep_ms = 1000
    ∧ (_main_console_handler daemon CTRL_C_EVENT).handled = true
    ∧ (sighandler SIGINT).posted_events = [Event.foundationTerminate] := by
  cases daemon <;> decide

/-- C3: a SystemShutdown notification (CTRL_SHUTDOWN_EVENT) with the
daemon-mode flag false posts exactly one termination event, requests OS
shutdown deferral through the shutdown-parameters API, and pauses the handler
thread 1000 ms before returning handled to the OS. -/
theorem C3_system_shutdown_deferral :
    (_main_console_handler false CTRL_SHUTDOWN_EVENT).posted_events = [Event.foundationTerminate]
    ∧ (_main_console_handler false CTRL_SHUTDOWN_EVENT).shutdown_params_set = true
    ∧ (_main_console_handler false CTRL_SHUTDOWN_EVENT).sleep_ms = 1000
    ∧ (_main_console_handler false CTRL_SHUTDOWN_EVENT).handled = true := by
  decide

/-- C4: in a debug build, after a successful initialize, both the Windows
and the console entry adapters invoke main_run directly (never through the
crash guard), build no crash-context label, and register no fault handler,
for every application descriptor (with or without a dump callback). -/
theorem C4_debug_direct_run (init_result : Int) (app : application_t)
    (run_result : Int) (h : 0 ≤ init_result) :
    (WinMain true init_result app run_result).run_call = some RunCall.direct_main_run
    ∧ (WinMain true init_result app run_result).guard_set = false
    ∧ (WinMain true init_result app run_result).label_built = none
    ∧ (main_console true init_result app run_result).run_call = some RunCall.direct_main_run
    ∧ (main_console true init_result app run_result).guard_set = false
    ∧ (main_console true init_result app run_result).label_built = none := by
  have h' : ¬ (init_result < 0) := not_lt.mpr h
  simp [WinMain, main_console, h']

/-- C4 witness: the debug-build direct-run property evaluated at a concrete
successful initialize and a descriptor that does supply a dump callback. -/
theorem C4_debug_direct_run_witness :
    (WinMain true 0 sampleApp 7).run_call = some RunCall.direct_main_run
    ∧ (WinMain true 0 sampleApp 7).guard_set = false
    ∧ (WinMain true 0 sampleApp 7).label_built = none
    ∧ (main_console true 0 sampleApp 7).run_call = some RunCall.direct_main_run
    ∧ (main_console true 0 sampleApp 7).guard_set = false
    ∧ (main_console true 0 sampleApp 7).label_built = none :=
  C4_debug_direct_run 0 sampleApp 7 (by decide)

/-- C5: if main_initialize returns a negative value, every entry adapter
returns the failure exit code -1 without invoking the run phase and without
calling main_shutdown. -/
theorem C5_init_failure (build_debug bsdutility bundle_present : Bool)
    (init_result : Int) (app : application_t)
    (run_result app_main_result ui_loop_result : Int) (h : init_result < 0) :
    (WinMain build_debug init_result app run_result).exit_code = -1
    ∧ (WinMain build_debug init_result app run_result).run_call = none
    ∧ (WinMain build_debug init_result app run_result).shutdown_called = false
    ∧ (main_console build_debug init_result app run_result).exit_code = -1
    ∧ (main_console build_debug init_result app run_result).run_call = none
    ∧ (main_console build_debug init_result app run_result).shutdown_called = false
    ∧ (main_macosx bsdutility build_debug init_result app app_main_result
        ui_loop_result bundle_present).exit_code = -1
    ∧ (main_macosx bsdutility build_debug init_result app app_main_result
        ui_loop_result bundle_present).run_call = none
    ∧ (main_macosx bsdutility build_debug init_result app app_main_result
        ui_loop_result bundle_present).shutdown_called = false := by
  simp [WinMain, main_console, main_macosx, h]

/-- C5 witness: the initialize-failure property evaluated at the concrete
failing initialize result -1. -/
theorem C5_init_failure_witness :
    (WinMain false (-1) sampleApp 7).exit_code = -1
    ∧ (WinMain false (-1) sampleApp 7).run_call = none
    ∧ (WinMain false (-1) sampleApp 7).shutdown_called = false
    ∧ (main_console false (-1) sampleApp 7).exit_code = -1
    ∧ (main_console false (-1) sampleApp 7).run_call = none
    ∧ (main_console false (-1) sampleApp 7).shutdown_called = false
    ∧ (main_macosx true false (-1) sampleApp 7 9 true).exit_code = -1
    ∧ (main_macosx true false (-1) sampleApp 7 9 true).run_call = none
    ∧ (main_macosx true false (-1) sampleApp 7 9 true).shutdown_called = false :=
  C5_init_failure false true true (-1) sampleApp 7 7 9 (by decide)

/-- C6: after a successful initialize, the console-style adapters return
exactly the value produced by the run step, in both build modes, and the
main_shutdown call that follows the run step leaves that value unchanged
(shutdown is called, and the exit code still equals the run value). -/
theorem C6_exit_code_is_run_value (build_debug : Bool) (init_result : Int)
    (app : application_t) (run_result : Int) (h : 0 ≤ init_result) :
    (WinMain build_debug init_result app run_result).exit_code = run_result
    ∧ (WinMain build_debug init_result app run_result).shutdown_called = true
    ∧ (main_console build_debug init_result app run_result).exit_code = run_result
    ∧ (main_console build_debug init_result app run_result).shutdown_called = true := by
  have h' : ¬ (init_result < 0) := not_lt.mpr h
  cases build_debug <;> simp [WinMain, main_console, h']

/-- C6 witness: the exit-code property evaluated at a successful initialize
and the concrete run value 7. -/
theorem C6_exit_code_is_run_value_witness :
    (WinMain false 0 sampleApp 7).exit_code = 7
    ∧ (WinMain false 0 sampleApp 7).shutdown_called = true
    ∧ (main_console false 0 sampleApp 7).exit_code = 7
    ∧ (main_console false 0 sampleApp 7).shutdown_called = true :=
  C6_exit_code_is_run_value false 0 sampleApp 7 (by decide)

/-- C7: in a release build (after a successful initialize), both adapters
build the crash-context label as the descriptor's short name (or the literal
"unknown" when absent) followed by "-" and the version string, and
deallocate that label storage exactly once after the run step returns. -/
theorem C7_crash_label (init_result : Int) (app : application_t)
    (run_result : Int) (h : 0 ≤ init_result) :
    (WinMain false init_result app run_result).label_built
      = some (app.short_name.getD "unknown" ++ "-" ++ app.version)
    ∧ (WinMain false init_result app run_result).label_deallocations = 1
    ∧ (main_console false init_result app run_result).label_built
      = some (app.short_name.getD "unknown" ++ "-" ++ app.version)
    ∧ (main_console false init_result app run_result).label_deallocations = 1 := by
  have h' : ¬ (init_result < 0) := not_lt.mpr h
  cases happ : app.short_name <;>
    simp [WinMain, main_console, build_crash_label, h', happ]

/-- C7 witness: the crash-label property evaluated at a descriptor with no
short name, exercising the "unknown" fallback. -/
theorem C7_crash_label_witness :
    (WinMain false 0 anonApp 7).label_built = some ("unknown" ++ "-" ++ "2.3")
    ∧ (WinMain false 0 anonApp 7).label_deallocations = 1
    ∧ (main_console false 0 anonApp 7).label_built = some ("unknown" ++ "-" ++ "2.3")
    ∧ (main_console false 0 anonApp 7).label_deallocations = 1 :=
  C7_crash_label 0 anonApp 7 (by decide)

/-- C8 counterexample: the claim that the headless (BSD utility) Apple path
behaves exactly like the console case, "including the crash-guard wrapping in
release builds", is false: in a release build with a dump callback configured
the console adapter routes the run through the crash guard, while the Apple
headless path calls app_main directly and never sets the crash guard. -/
theorem C8_counterexample :
    (main_macosx true false 0 sampleApp 7 9 true).run_call
      ≠ (main_console false 0 sampleApp 7).run_call
    ∧ (main_macosx true false 0 sampleApp 7 9 true).guard_set = false
    ∧ (main_console false 0 sampleApp 7).guard_set = true := by
  decide

/-- C8 (amended): when configured as a headless BSD utility (and initialize
succeeds), the macOS adapter calls app_main directly on the calling thread —
no UI event loop is entered and no secondary thread is spawned — then calls
main_shutdown and returns app_main's value, matching the console case's
sequencing; but it never applies the crash-guard wrapping and builds no
crash label, in either build mode, even when a dump callback is configured. -/
theorem C8_headless_amended (build_debug : Bool) (init_result : Int)
    (app : application_t) (app_main_result ui_loop_result : Int)
    (bundle_present : Bool) (h : 0 ≤ init_result) :
    (main_macosx true build_debug init_result app app_main_result
        ui_loop_result bundle_present).run_call = some RunCall.direct_app_main
    ∧ (main_macosx true build_debug init_result app app_main_result
        ui_loop_result bundle_present).secondary_thread_spawned = false
    ∧ (main_macosx true build_debug init_result app app_main_result
        ui_loop_result bundle_present).ui_loop_entered = false
    ∧ (main_macosx true build_debug init_result app app_main_result
        ui_loop_result bundle_present).guard_set = false
    ∧ (main_macosx true build_debug init_result app app_main_result
        ui_loop_result bundle_present).label_built = none
    ∧ (main_macosx true build_debug init_result app app_main_result
        ui_loop_result bundle_present).shutdown_called = true
    ∧ (main_macosx true build_debug init_result app app_main_result
        ui_loop_result bundle_present).exit_code = app_main_result := by
  have h' : ¬ (init_result < 0) := not_lt.mpr h
  simp [main_macosx, h']

/-- C8 witness: the amended headless-utility property evaluated at a
successful initialize, release build, dump callback configured. -/
theorem C8_headless_amended_witness :
    (main_macosx true false 0 sampleApp 7 9 true).run_call = some RunCall.direct_app_main
    ∧ (main_macosx true false 0 sampleApp 7 9 true).secondary_thread_spawned = false
    ∧ (main_macosx true false 0 sampleApp 7 9 true).ui_loop_entered = false
    ∧ (main_macosx true false 0 sampleApp 7 9 true).guard_set = false
    ∧ (main_macosx true false 0 sampleApp 7 9 true).label_built = none
    ∧ (main_macosx true false 0 sampleApp 7 9 true).shutdown_called = true
    ∧ (main_macosx true false 0 sampleApp 7 9 true).exit_code = 7 :=
  C8_headless_amended false 0 sampleApp 7 9 true (by decide)

/-- C9: the Apple "will terminate" hook performs the full termination
sequence synchronously (nine steps, beginning with posting the termination
event), and when the bundle handle is present its cleanup releases the
bundle exactly once, then deallocates the argument-vector storage exactly
once, and only after both calls the final core_shutdown exactly once, in
that order. -/
theorem C9_will_terminate_cleanup_order :
    (_app_will_terminate true).head? = some (AppAction.postEvent Event.coreTerminate)
    ∧ (_app_will_terminate true).length = 9
    ∧ (_app_will_terminate true).count AppAction.releaseBundle = 1
    ∧ (_app_will_terminate true).count AppAction.deallocArgv = 1
    ∧ (_app_will_terminate true).count AppAction.coreShutdown = 1
    ∧ (_app_will_terminate true).indexOf AppAction.releaseBundle
        < (_app_will_terminate true).indexOf AppAction.deallocArgv
    ∧ (_app_will_terminate true).indexOf AppAction.deallocArgv
        < (_app_will_terminate true).indexOf AppAction.coreShutdown := by
  decide

/-- C10: the Windows handler reports a CTRL_BREAK console control event as
handled (returns TRUE) yet posts no termination event, sets no shutdown
parameters, and performs no sleep, regardless of the daemon configuration. -/
theorem C10_ctrl_break_handled_but_silent (daemon : Bool) :
    (_main_console_handler daemon CTRL_BREAK_EVENT).posted_events = []
    ∧ (_main_console_handler daemon CTRL_BREAK_EVENT).shutdown_params_set = false
    ∧ (_main_console_handler daemon CTRL_BREAK_EVENT).sleep_ms = 0
    ∧ (_main_console_handler daemon CTRL_BREAK_EVENT).handled = true := by
  cases daemon <;> decide

end Foundation
